import Mathlib

/-!
Verification of the Clover-ai browser client (src/txtai/script.js, plus the
compact-UI variant in src/unnamed/part_001).

The embedding below translates the client-side orchestration code into
executable Lean definitions:

* the selection store (`state.selectedUserDocIds` / `state.selectedMahareraIds`
  as `Finset String`, listings as lists of document records),
* the synchronous prefixes of `sendMessage` / `checkCompliance` (everything the
  JS engine runs before the first `await`, which is what decides validation and
  whether a network request is issued),
* the message view construction of `addMessage` (which HTML blocks are built),
* the batch-result rendering of `displayBatchResults` / `generateBatchPdfReport`,
* the cursor/page-break arithmetic of `generateComplianceReport`'s `addText` /
  `addSection` helpers, with vertical positions as rationals and every drawn
  text line recorded as a `(page, y)` pair.

JavaScript strings are modelled by `String` (a list of characters); the JS
truthiness test on possibly-absent string fields (`x ?`, `x || fallback`) is
modelled by `jsTruthy` on `Option String`, where `none` is `undefined`/`null`
and the empty string is falsy. `s.substring(0, n)` is `jsSubstring s n`.
Network calls are not performed: a function that would issue exactly one
`fetch` returns `some request`; a rejected submission returns `none`.
-/

namespace Clover

/-- JS truthiness on an optional string field: `undefined`, `null` and the
empty string are all falsy (`x ?` / `x || y` in the source). -/
def jsTruthy (o : Option String) : Option String :=
  match o with
  | none => none
  | some s => if s = "" then none else some s

/-- `s.substring(0, n)` from JS: the first `n` characters of `s` (all of `s`
when `s` is shorter). -/
def jsSubstring (s : String) (n : Nat) : String :=
  ⟨s.data.take n⟩

/-- `s.trim()` from JS: leading and trailing whitespace removed. -/
def jsTrim (s : String) : String :=
  ⟨((s.data.dropWhile Char.isWhitespace).reverse.dropWhile Char.isWhitespace).reverse⟩

/-- The persisted settings record (`state.settings` in script.js). -/
structure RagSettings where
  language : String
  topK : Nat
  showSources : Bool
deriving DecidableEq, Repr

/-- One entry of the user-document listing (`state.documents`). -/
structure UserDoc where
  filename : String
  char_count : Nat
  chunks : Nat
deriving DecidableEq, Repr

/-- One entry of the regulatory listing (`state.mahareraDocuments`). -/
structure MahareraDoc where
  filename : String
  title : Option String
  doc_type : String
  date : Option String
  char_count : Nat
deriving DecidableEq, Repr

/-- The client-side mutable state of script.js that the embedded operations
read and write: the two listings, the two selection sets, the legacy
single-selection field `state.selectedDocument`, the `isLoading` flag, the
settings, and the chat input's current value. -/
structure AppState where
  documents : List UserDoc
  mahareraDocuments : List MahareraDoc
  selectedUserDocIds : Finset String
  selectedMahareraIds : Finset String
  selectedDocument : Option String
  isLoading : Bool
  settings : RagSettings
  messageInputValue : String
deriving DecidableEq

/-- `toggleUserDocSelection(filename)` (script.js:403-411): membership flip on
`state.selectedUserDocIds`, with no check against the listing. -/
def toggleUserDocSelection (st : AppState) (filename : String) : AppState :=
  if filename ∈ st.selectedUserDocIds then
    { st with selectedUserDocIds := st.selectedUserDocIds.erase filename }
  else
    { st with selectedUserDocIds := insert filename st.selectedUserDocIds }

/-- `toggleMahareraSelection(filename)` (script.js:442-450): membership flip on
`state.selectedMahareraIds`, with no check against the listing. -/
def toggleMahareraSelection (st : AppState) (filename : String) : AppState :=
  if filename ∈ st.selectedMahareraIds then
    { st with selectedMahareraIds := st.selectedMahareraIds.erase filename }
  else
    { st with selectedMahareraIds := insert filename st.selectedMahareraIds }

/-- The derived select-all checkbox state `{checked, indeterminate}`. -/
structure SelectAllStatus where
  checked : Bool
  indeterminate : Bool
deriving DecidableEq, Repr

/-- `updateSelectAllUserDocsState()` (script.js:431-439): derived status of the
user-document select-all checkbox. -/
def updateSelectAllUserDocsState (st : AppState) : SelectAllStatus :=
  let totalDocs := st.documents.length
  let selectedCount := st.selectedUserDocIds.card
  { checked := decide (selectedCount = totalDocs) && decide (0 < totalDocs)
  , indeterminate := decide (0 < selectedCount) && decide (selectedCount < totalDocs) }

/-- `updateSelectAllState()` (script.js:470-476): derived status of the
MahaRERA select-all checkbox. -/
def updateSelectAllState (st : AppState) : SelectAllStatus :=
  let totalDocs := st.mahareraDocuments.length
  let selectedCount := st.selectedMahareraIds.card
  { checked := decide (selectedCount = totalDocs) && decide (0 < totalDocs)
  , indeterminate := decide (0 < selectedCount) && decide (selectedCount < totalDocs) }

/-- `deleteDocument(filename)` (script.js:360-391), success path: the listing
is reloaded without the deleted document, and the legacy single-selection
field `state.selectedDocument` is cleared when it matches.  Note that this
variant never touches `state.selectedUserDocIds`. -/
def deleteDocument (st : AppState) (filename : String) : AppState :=
  { st with
      documents := st.documents.filter (fun d => d.filename ≠ filename)
    , selectedDocument :=
        if st.selectedDocument = some filename then none else st.selectedDocument }

/-- `deleteDocument(filename)` from src/unnamed/part_001 (lines 375-399),
success path: the listing is reloaded without the deleted document, and the
filename is removed from `state.selectedUserDocIds` when it was selected. -/
def deleteDocumentV2 (st : AppState) (filename : String) : AppState :=
  { st with
      documents := st.documents.filter (fun d => d.filename ≠ filename)
    , selectedUserDocIds :=
        if filename ∈ st.selectedUserDocIds then
          st.selectedUserDocIds.erase filename
        else st.selectedUserDocIds }

/-- The JSON body POSTed to `/api/query` by `sendMessage` / `checkCompliance`.
A `none` in `selectedDocuments` / `selectedMaharera` is the JS `null`
("search all").  `complianceCheck` is the `compliance_check` flag (absent in
`sendMessage`'s body, i.e. `false`). -/
structure QueryRequest where
  question : String
  topK : Nat
  language : String
  selectedDocuments : Option (List String)
  selectedMaharera : Option (List String)
  complianceCheck : Bool
deriving DecidableEq, Repr

/-- Number of network calls represented by an optional issued request. -/
def requestCount (r : Option QueryRequest) : Nat :=
  if r.isSome then 1 else 0

/-- The synchronous prefix of `checkCompliance()` (script.js:510-564): the two
validation guards, the construction of the compliance question from current
selections, the `isLoading` flip, and the single `/api/query` request (or
`none` when validation rejects before any network call).  `Array.from(Set)`
is modelled by sorting the `Finset` into a canonical list. -/
def checkCompliance (st : AppState) : AppState × Option QueryRequest :=
  if st.selectedMahareraIds.card = 0 then (st, none)
  else if st.documents.length = 0 then (st, none)
  else
    let selectedUserDocs := st.selectedUserDocIds.sort (· ≤ ·)
    let userDocName :=
      if 0 < selectedUserDocs.length then String.intercalate ", " selectedUserDocs
      else "all user documents"
    let selectedDocs := st.selectedMahareraIds.sort (· ≤ ·)
    let docNames := String.intercalate ", " (selectedDocs.map (fun f =>
      match st.mahareraDocuments.find? (fun d => d.filename = f) with
      | some doc =>
        match jsTruthy doc.title with
        | some t => t
        | none => doc.filename
      | none => f))
    let complianceQuestion :=
      "Analyze " ++ userDocName ++
      " for compliance with the following MahaRERA regulations: " ++ docNames ++
      ". Check if my real estate agreement follows all the guidelines, rules, and requirements specified in these regulatory documents. Highlight any compliance issues, missing clauses, or areas of concern."
    ({ st with isLoading := true },
     some { question := complianceQuestion
          , topK := 10
          , language := st.settings.language
          , selectedDocuments :=
              if 0 < selectedUserDocs.length then some selectedUserDocs else none
          , selectedMaharera := some selectedDocs
          , complianceCheck := true })

/-- The synchronous prefix of `sendMessage()` (script.js:586-624): the
`!message || state.isLoading` guard, clearing the input, the `isLoading`
flip, and the single `/api/query` request (or `none` when rejected). -/
def sendMessage (st : AppState) : AppState × Option QueryRequest :=
  let message := jsTrim st.messageInputValue
  if message = "" ∨ st.isLoading = true then (st, none)
  else
    let selectedMaharera := st.selectedMahareraIds.sort (· ≤ ·)
    let selectedUserDocs := st.selectedUserDocIds.sort (· ≤ ·)
    ({ st with messageInputValue := "", isLoading := true },
     some { question := message
          , topK := st.settings.topK
          , language := st.settings.language
          , selectedDocuments :=
              if 0 < selectedUserDocs.length then some selectedUserDocs else none
          , selectedMaharera :=
              if 0 < selectedMaharera.length then some selectedMaharera else none
          , complianceCheck := false })

/-- The backend `decision` object attached to a query response; both fields
may be absent. -/
structure Decision where
  compliance_check : Option Bool
  is_red_flag : Option Bool
deriving DecidableEq, Repr

/-- `decision && decision.compliance_check === true` (script.js:655). -/
def isComplianceCheck (decision : Option Decision) : Bool :=
  match decision with
  | none => false
  | some d => d.compliance_check == some true

/-- One `{domain, description}` entry of a missing-clause list. -/
structure MissingItem where
  domain : String
  description : String
deriving DecidableEq, Repr

/-- The backend `compliance_summary` object. -/
structure ComplianceSummary where
  is_compliant : Bool
  compliant_count : Nat
  total_checks : Nat
  critical_missing : List MissingItem
  high_missing : List MissingItem
  medium_missing : List MissingItem
deriving DecidableEq, Repr

/-- A red flag's `clause_source` object; every field may be absent. -/
structure ClauseSource where
  filename : Option String
  sectionLabel : Option String
  excerpt : Option String
deriving DecidableEq, Repr

/-- One `{filename, excerpt}` entry of a red flag's `authority_support`. -/
structure AuthorityRef where
  filename : String
  excerpt : String
deriving DecidableEq, Repr

/-- A backend red flag. -/
structure RedFlag where
  severity : String
  rule_id : String
  domain : String
  reason : String
  clause_source : Option ClauseSource
  authority_support : List AuthorityRef
  has_authority_support : Option Bool
deriving DecidableEq, Repr

/-- One `{filename, section, chunk_idx, text}` source entry of a response
(the floating-point relevance score is not consumed by any embedded
operation and is omitted). -/
structure SourceItem where
  filename : String
  sectionLabel : Option String
  chunk_idx : Nat
  text : String
deriving DecidableEq, Repr

/-- The on-screen rendering of a single red flag inside the red-flags
container (script.js:751-781): severity/rule/domain/reason, the clause-source
line (only when `clauseSrc.filename` is truthy), the truncated clause excerpt
(only when the excerpt is additionally truthy), and the authority-reference
lines (first two entries, each with a 100-character excerpt). -/
structure RedFlagItemView where
  severity : String
  ruleId : String
  domain : String
  reason : String
  clauseFile : Option String
  clauseExcerpt : Option String
  authorityLines : List String
deriving DecidableEq, Repr

/-- Rendering of one red flag into its on-screen item view (the body of the
`redFlags.map` at script.js:751-781). -/
def renderRedFlagItem (flag : RedFlag) : RedFlagItemView :=
  let clauseSrc := flag.clause_source.getD ⟨none, none, none⟩
  let authSupport := flag.authority_support.take 2
  { severity := flag.severity
  , ruleId := flag.rule_id
  , domain := flag.domain
  , reason := flag.reason
  , clauseFile := jsTruthy clauseSrc.filename
  , clauseExcerpt :=
      match jsTruthy clauseSrc.filename with
      | none => none
      | some _ =>
        match jsTruthy clauseSrc.excerpt with
        | none => none
        | some e => some (jsSubstring e 150 ++ "...")
  , authorityLines :=
      if flag.has_authority_support ≠ some false ∧ 0 < authSupport.length then
        authSupport.map (fun a =>
          "- " ++ a.filename ++ ": \"" ++ jsSubstring a.excerpt 100 ++ "...\"")
      else [] }

/-- The on-screen compliance-verification block (script.js:657-725): the
header counts and the non-empty missing-clause groups in the fixed order
critical, high, medium (empty when fully compliant). -/
structure ComplianceBlockView where
  isFullyCompliant : Bool
  compliantCount : Nat
  totalChecks : Nat
  missingGroups : List (String × List MissingItem)
deriving DecidableEq, Repr

/-- Construction of the compliance block from a `compliance_summary`
(script.js:657-725). -/
def buildComplianceBlock (cs : ComplianceSummary) : ComplianceBlockView :=
  { isFullyCompliant := cs.is_compliant
  , compliantCount := cs.compliant_count
  , totalChecks := cs.total_checks
  , missingGroups :=
      if cs.is_compliant then []
      else
        (if 0 < cs.critical_missing.length then [("CRITICAL", cs.critical_missing)] else [])
        ++ (if 0 < cs.high_missing.length then [("HIGH", cs.high_missing)] else [])
        ++ (if 0 < cs.medium_missing.length then [("MEDIUM", cs.medium_missing)] else []) }

/-- The structured view `addMessage` assembles for an assistant message: the
optional compliance block, the optional red-flag item list, the
no-red-flags banner, and the optional source filenames list.  A `none`
block means the corresponding HTML is the empty string. -/
structure MessageView where
  complianceBlock : Option ComplianceBlockView
  redFlagItems : Option (List RedFlagItemView)
  noRedFlagsBanner : Bool
  sourcesBlock : Option (List String)
deriving DecidableEq, Repr

/-- The block-assembly logic of `addMessage` (script.js:643-846):
`complianceHTML` is built iff `isComplianceCheck && complianceSummary`;
`redFlagsHTML` lists the flags iff `isComplianceCheck && redFlags &&
redFlags.length > 0`, and otherwise shows the banner iff `isComplianceCheck
&& decision.is_red_flag === false`; `sourcesHTML` is built iff sources are
non-empty and `state.settings.showSources`. -/
def addMessageView (decision : Option Decision) (complianceSummary : Option ComplianceSummary)
    (redFlags : Option (List RedFlag)) (sources : Option (List SourceItem))
    (showSources : Bool) : MessageView :=
  let isCC := isComplianceCheck decision
  let flagsList := redFlags.getD []
  let hasFlags := redFlags.isSome && decide (0 < flagsList.length)
  { complianceBlock :=
      if isCC && complianceSummary.isSome then complianceSummary.map buildComplianceBlock
      else none
  , redFlagItems :=
      if isCC && hasFlags then some (flagsList.map renderRedFlagItem) else none
  , noRedFlagsBanner :=
      !(isCC && hasFlags) && isCC &&
        ((decision.map Decision.is_red_flag).getD none == some false)
  , sourcesBlock :=
      let srcList := sources.getD []
      if sources.isSome && decide (0 < srcList.length) && showSources then
        some (srcList.map SourceItem.filename)
      else none }

/-- The record `addMessage` stores on the message element as
`messageDiv._reportData` (script.js:849-856): the original, untruncated
response data, later consumed by `generateComplianceReport`. -/
structure ReportData where
  content : String
  redFlags : Option (List RedFlag)
  decision : Option Decision
  complianceSummary : Option ComplianceSummary
  sources : Option (List SourceItem)
deriving DecidableEq, Repr

/-- `messageDiv._reportData = {content, redFlags, decision, complianceResults,
complianceSummary, sources}` (script.js:849-856): the inputs are stored as
they are. -/
def addMessageReportData (content : String) (sources : Option (List SourceItem))
    (redFlags : Option (List RedFlag)) (decision : Option Decision)
    (complianceSummary : Option ComplianceSummary) : ReportData :=
  { content := content
  , redFlags := redFlags
  , decision := decision
  , complianceSummary := complianceSummary
  , sources := sources }

/-- The text lines `generateComplianceReport` prints for one red flag in the
RED FLAG ANALYSIS section (script.js:1019-1039): header, domain, issue, then
the clause-source lines when `flag.clause_source?.filename` is truthy, with
the excerpt line only when the excerpt is additionally truthy. -/
def generateComplianceReportFlagLines (flag : RedFlag) (idx : Nat) : List String :=
  ["Red Flag #" ++ toString (idx + 1) ++ ": [" ++ flag.severity ++ "] " ++ flag.rule_id,
   "Domain: " ++ flag.domain,
   "Issue: " ++ flag.reason]
  ++ (match flag.clause_source with
      | none => []
      | some cs =>
        match jsTruthy cs.filename with
        | none => []
        | some f =>
          ("Found in: " ++ f) ::
          (match jsTruthy cs.excerpt with
           | none => []
           | some e => ["Excerpt: \"" ++ jsSubstring e 150 ++ "...\""]))

/-- One per-document entry of a `/api/batch-process` response. -/
structure BatchEntry where
  filename : String
  status : Option String
  error : Option String
  red_flags : Option (List RedFlag)
  compliance_summary : Option ComplianceSummary
deriving DecidableEq, Repr

/-- The on-screen rendering of one batch entry (script.js:1265-1283): an
error marker when `result.status === 'error'`, otherwise the red-flag count
and the clauses-found counts. -/
inductive BatchEntryView where
  | errorView (filename : String) (message : String)
  | statsView (filename : String) (redFlagCount : Nat) (compliantCount : Nat)
      (totalChecks : Nat)
deriving DecidableEq, Repr

/-- Rendering of one per-document entry in `displayBatchResults`
(script.js:1265-1283).  A missing `result.error` prints as the JS string
"undefined". -/
def renderBatchEntry (r : BatchEntry) : BatchEntryView :=
  if r.status = some "error" then
    .errorView r.filename (r.error.getD "undefined")
  else
    .statsView r.filename (r.red_flags.getD []).length
      ((r.compliance_summary.map ComplianceSummary.compliant_count).getD 0)
      ((r.compliance_summary.map ComplianceSummary.total_checks).getD 0)

/-- The per-document part of `displayBatchResults` (script.js:1264-1284):
each entry is rendered by `renderBatchEntry`, independently of the rest. -/
def displayBatchResults (results : List BatchEntry) : List BatchEntryView :=
  results.map renderBatchEntry

/-- The PDF rendering of one batch entry in `generateBatchPdfReport`
(script.js:1398-1450): an error line when `result.status === 'error'`,
otherwise counts, the first three red-flag lines (60-character truncated
reasons) and an optional "... and N more" line. -/
inductive BatchPdfEntryView where
  | errorView (filename : String) (message : String)
  | statsView (filename : String) (redFlagCount : Nat) (compliantCount : Nat)
      (totalChecks : Nat) (flagLines : List String) (moreLine : Option String)
deriving DecidableEq, Repr

/-- Rendering of one per-document entry in `generateBatchPdfReport`
(script.js:1398-1450). -/
def renderBatchPdfEntry (r : BatchEntry) : BatchPdfEntryView :=
  if r.status = some "error" then
    .errorView r.filename ("Error: " ++ r.error.getD "undefined")
  else
    let rfs := r.red_flags.getD []
    .statsView r.filename rfs.length
      ((r.compliance_summary.map ComplianceSummary.compliant_count).getD 0)
      ((r.compliance_summary.map ComplianceSummary.total_checks).getD 0)
      ((rfs.take 3).map (fun rf =>
        "  - [" ++ rf.severity ++ "] " ++ rf.rule_id ++ ": " ++
          jsSubstring rf.reason 60 ++ "..."))
      (if 3 < rfs.length then some ("  ... and " ++ toString (rfs.length - 3) ++ " more")
       else none)

/-- The per-document pass of `generateBatchPdfReport` (the `results.forEach`
at script.js:1398-1450): one `renderBatchPdfEntry` block per entry. -/
def generateBatchPdfReportEntries (results : List BatchEntry) : List BatchPdfEntryView :=
  results.map renderBatchPdfEntry

/-- The layout cursor of `generateComplianceReport` (script.js:893-1084):
the running vertical position `yPos`, the current page index, and the list
of `(page, y)` positions of every text line drawn so far (most recent
first). -/
structure PdfLayout where
  yPos : ℚ
  page : Nat
  drawn : List (Nat × ℚ)
deriving DecidableEq, Repr

/-- Drawing one wrapped line inside `addText`'s loop (script.js:916-923):
if `yPos > pageHeight - 30` a new page is added and `yPos` reset to 20, then
the line is drawn at `(margin, yPos)` and `yPos` advances by
`fontSize * 0.5`. -/
def addTextLine (pageHeight fontSize : ℚ) (st : PdfLayout) : PdfLayout :=
  let broken :=
    if pageHeight - 30 < st.yPos then { st with yPos := 20, page := st.page + 1 }
    else st
  { broken with
      drawn := (broken.page, broken.yPos) :: broken.drawn
    , yPos := broken.yPos + fontSize / 2 }

/-- `addText(text, fontSize, ...)` (script.js:910-925), abstracted over the
number `n` of wrapped lines `doc.splitTextToSize` produced: the per-line
loop followed by the `yPos += 2` inter-paragraph gap. -/
def addText (pageHeight fontSize : ℚ) (n : Nat) (st : PdfLayout) : PdfLayout :=
  match n with
  | 0 => { st with yPos := st.yPos + 2 }
  | m + 1 => addText pageHeight fontSize m (addTextLine pageHeight fontSize st)

/-- `addSection(title)` (script.js:937-950): `yPos += 5`, a page break when
`yPos > pageHeight - 40` (larger look-ahead so the banner is not split),
the banner text drawn at `yPos + 2`, then `yPos += 15`. -/
def addSection (pageHeight : ℚ) (st : PdfLayout) : PdfLayout :=
  let st1 := { st with yPos := st.yPos + 5 }
  let st2 :=
    if pageHeight - 40 < st1.yPos then { st1 with yPos := 20, page := st1.page + 1 }
    else st1
  { st2 with
      drawn := (st2.page, st2.yPos + 2) :: st2.drawn
    , yPos := st2.yPos + 15 }

/-! ## Concrete fixtures used by witnesses and counterexamples -/

/-- A state with one listed user document and nothing selected. -/
def stOrphan : AppState :=
  { documents := [⟨"contract.pdf", 1200, 3⟩]
  , mahareraDocuments := []
  , selectedUserDocIds := ∅
  , selectedMahareraIds := ∅
  , selectedDocument := none
  , isLoading := false
  , settings := ⟨"auto", 3, true⟩
  , messageInputValue := "" }

/-- A state in which the single listed user document is selected. -/
def stSel : AppState :=
  { documents := [⟨"a.pdf", 500, 2⟩]
  , mahareraDocuments := []
  , selectedUserDocIds := {"a.pdf"}
  , selectedMahareraIds := ∅
  , selectedDocument := none
  , isLoading := false
  , settings := ⟨"auto", 3, true⟩
  , messageInputValue := "" }

/-- Three listed user documents, two of them selected; one regulatory
document, selected. -/
def stSubset : AppState :=
  { documents := [⟨"a.pdf", 100, 1⟩, ⟨"b.pdf", 200, 1⟩, ⟨"c.pdf", 300, 1⟩]
  , mahareraDocuments := [⟨"law.pdf", some "Law", "central_law", none, 10⟩]
  , selectedUserDocIds := {"a.pdf", "b.pdf"}
  , selectedMahareraIds := {"law.pdf"}
  , selectedDocument := none
  , isLoading := false
  , settings := ⟨"auto", 3, true⟩
  , messageInputValue := "" }

/-- A state satisfying both compliance-check preconditions: two listed user
documents, one regulatory document selected, idle. -/
def stReady : AppState :=
  { documents := [⟨"agreement.pdf", 40000, 12⟩, ⟨"annexure.pdf", 9000, 3⟩]
  , mahareraDocuments := [⟨"rera_act.pdf", some "RERA Act 2016", "central_law", some "2016", 250000⟩]
  , selectedUserDocIds := {"agreement.pdf"}
  , selectedMahareraIds := {"rera_act.pdf"}
  , selectedDocument := none
  , isLoading := false
  , settings := ⟨"auto", 3, true⟩
  , messageInputValue := "" }

/-- Two listed user documents but zero selected regulatory documents
(end-to-end scenario B of the spec). -/
def stNoMaha : AppState :=
  { stReady with selectedMahareraIds := ∅ }

/-- A state with a request already in flight (`isLoading = true`). -/
def stBusy : AppState :=
  { stReady with isLoading := true }

/-- An idle state whose chat input holds a non-empty question. -/
def stMsg : AppState :=
  { stReady with messageInputValue := "What is RERA registration?" }

/-- A red flag with a clause source carrying a filename and an excerpt. -/
def flagEx : RedFlag :=
  { severity := "HIGH", rule_id := "RERA-13", domain := "payment"
  , reason := "Advance payment above the permitted limit"
  , clause_source := some ⟨some "agreement.pdf", some "4.2", some "Clause 4.2 text"⟩
  , authority_support := [⟨"rera_act.pdf", "Section 13 of the Act"⟩]
  , has_authority_support := some true }

/-- A successfully processed, fully compliant batch entry. -/
def okEntry1 : BatchEntry :=
  { filename := "a.pdf", status := some "success", error := none
  , red_flags := some [], compliance_summary := some ⟨true, 5, 5, [], [], []⟩ }

/-- A batch entry whose processing failed. -/
def errEntry : BatchEntry :=
  { filename := "b.pdf", status := some "error", error := some "OCR failed"
  , red_flags := none, compliance_summary := none }

/-- A successfully processed batch entry with one red flag and missing
clauses. -/
def okEntry2 : BatchEntry :=
  { filename := "c.pdf", status := some "success", error := none
  , red_flags := some [flagEx]
  , compliance_summary := some ⟨false, 3, 5, [⟨"payment", "Missing payment schedule"⟩], [], []⟩ }

/-- A batch of three documents in which document #2 failed
(end-to-end scenario C of the spec). -/
def rs3 : List BatchEntry := [okEntry1, errEntry, okEntry2]

/-- A `decision` marking the response as a compliance check. -/
def decCompliance : Option Decision := some ⟨some true, some true⟩

/-- A `decision` for a plain (non-compliance) query that nevertheless carries
an `is_red_flag` field. -/
def decPlain : Option Decision := some ⟨none, some false⟩

/-- A non-compliant summary with three missing entries across the severity
groups. -/
def csumEx : ComplianceSummary :=
  ⟨false, 2, 5, [⟨"payment", "Missing payment schedule"⟩],
    [⟨"possession", "Missing possession date"⟩],
    [⟨"defects", "Missing defect liability clause"⟩]⟩

/-- A layout cursor sitting below the printable limit of an A4 page
(`pageHeight = 297`), about to force a page break. -/
def stPdf : PdfLayout := ⟨280, 1, []⟩

/-! ## Theorems -/

/-- Claim C9: toggling the same filename twice in succession returns both
selection sets to exactly their original membership — double-toggle is the
identity on the selection set, for every starting state and filename. -/
theorem c9_double_toggle_identity (st : AppState) (f : String) :
    (toggleUserDocSelection (toggleUserDocSelection st f) f).selectedUserDocIds
      = st.selectedUserDocIds ∧
    (toggleMahareraSelection (toggleMahareraSelection st f) f).selectedMahareraIds
      = st.selectedMahareraIds := by
  constructor
  · by_cases h : f ∈ st.selectedUserDocIds
    · simp [toggleUserDocSelection, h, Finset.not_mem_erase, Finset.insert_erase h]
    · simp [toggleUserDocSelection, h, Finset.mem_insert_self, Finset.erase_insert h]
  · by_cases h : f ∈ st.selectedMahareraIds
    · simp [toggleMahareraSelection, h, Finset.not_mem_erase, Finset.insert_erase h]
    · simp [toggleMahareraSelection, h, Finset.mem_insert_self, Finset.erase_insert h]

/-- Claim C2, counterexample: `toggleUserDocSelection` has no
listing-presence guard, so toggling a filename absent from the listing is
not a no-op — it inserts the orphan id into the selection set. -/
theorem c2_counterexample :
    "ghost.pdf" ∉ stOrphan.documents.map UserDoc.filename ∧
    stOrphan.selectedUserDocIds = ∅ ∧
    (toggleUserDocSelection stOrphan "ghost.pdf").selectedUserDocIds = {"ghost.pdf"} := by
  decide

/-- Claim C2, amended: toggling a filename flips its membership in the
corresponding selection set unconditionally — there is no listing-presence
guard, so a filename absent from the listing is inserted like any other —
and the membership of every other filename is unchanged. -/
theorem c2_toggle_flips_membership (st : AppState) (f g : String) (hg : g ≠ f) :
    (f ∈ (toggleUserDocSelection st f).selectedUserDocIds ↔
      f ∉ st.selectedUserDocIds) ∧
    (g ∈ (toggleUserDocSelection st f).selectedUserDocIds ↔
      g ∈ st.selectedUserDocIds) ∧
    (f ∈ (toggleMahareraSelection st f).selectedMahareraIds ↔
      f ∉ st.selectedMahareraIds) ∧
    (g ∈ (toggleMahareraSelection st f).selectedMahareraIds ↔
      g ∈ st.selectedMahareraIds) := by
  refine ⟨?_, ?_, ?_, ?_⟩
  · by_cases h : f ∈ st.selectedUserDocIds <;>
      simp [toggleUserDocSelection, h, Finset.mem_erase, Finset.mem_insert]
  · by_cases h : f ∈ st.selectedUserDocIds <;>
      simp [toggleUserDocSelection, h, Finset.mem_erase, Finset.mem_insert, hg]
  · by_cases h : f ∈ st.selectedMahareraIds <;>
      simp [toggleMahareraSelection, h, Finset.mem_erase, Finset.mem_insert]
  · by_cases h : f ∈ st.selectedMahareraIds <;>
      simp [toggleMahareraSelection, h, Finset.mem_erase, Finset.mem_insert, hg]

/-- Witness for the amended claim C2 at a concrete state and filenames. -/
theorem c2_witness :
    ("a.pdf" ∈ (toggleUserDocSelection stOrphan "a.pdf").selectedUserDocIds ↔
      "a.pdf" ∉ stOrphan.selectedUserDocIds) ∧
    ("b.pdf" ∈ (toggleUserDocSelection stOrphan "a.pdf").selectedUserDocIds ↔
      "b.pdf" ∈ stOrphan.selectedUserDocIds) ∧
    ("a.pdf" ∈ (toggleMahareraSelection stOrphan "a.pdf").selectedMahareraIds ↔
      "a.pdf" ∉ stOrphan.selectedMahareraIds) ∧
    ("b.pdf" ∈ (toggleMahareraSelection stOrphan "a.pdf").selectedMahareraIds ↔
      "b.pdf" ∈ stOrphan.selectedMahareraIds) :=
  c2_toggle_flips_membership stOrphan "a.pdf" "b.pdf" (by decide)

/-- Claim C3: on the failing input — a successful delete of the currently
selected document "a.pdf" — the script.js `deleteDocument` leaves the
selection set unchanged (the deleted filename stays selected even though it
is gone from the reloaded listing), while the part_001 variant
(`deleteDocumentV2`) removes it as the claim requires. -/
theorem c3_delete_selection_bug :
    "a.pdf" ∈ stSel.selectedUserDocIds ∧
    (deleteDocument stSel "a.pdf").selectedUserDocIds = stSel.selectedUserDocIds ∧
    "a.pdf" ∈ (deleteDocument stSel "a.pdf").selectedUserDocIds ∧
    "a.pdf" ∉ (deleteDocument stSel "a.pdf").documents.map UserDoc.filename ∧
    (deleteDocumentV2 stSel "a.pdf").selectedUserDocIds = ∅ := by
  decide

/-- Claim C7: for every state whose selection sets are subsets of their
listings, the derived select-all status satisfies: `checked` is true iff
`selectedCount = total ∧ total > 0`, and `indeterminate` is true iff
`0 < selectedCount < total`, for both document categories. -/
theorem c7_select_all_status (st : AppState)
    (_hu : ∀ f ∈ st.selectedUserDocIds, f ∈ st.documents.map UserDoc.filename)
    (_hm : ∀ f ∈ st.selectedMahareraIds, f ∈ st.mahareraDocuments.map MahareraDoc.filename) :
    ((updateSelectAllUserDocsState st).checked = true ↔
      st.selectedUserDocIds.card = st.documents.length ∧ 0 < st.documents.length) ∧
    ((updateSelectAllUserDocsState st).indeterminate = true ↔
      0 < st.selectedUserDocIds.card ∧
        st.selectedUserDocIds.card < st.documents.length) ∧
    ((updateSelectAllState st).checked = true ↔
      st.selectedMahareraIds.card = st.mahareraDocuments.length ∧
        0 < st.mahareraDocuments.length) ∧
    ((updateSelectAllState st).indeterminate = true ↔
      0 < st.selectedMahareraIds.card ∧
        st.selectedMahareraIds.card < st.mahareraDocuments.length) := by
  refine ⟨?_, ?_, ?_, ?_⟩ <;>
    simp [updateSelectAllUserDocsState, updateSelectAllState]

/-- Witness for claim C7 at a concrete state: three listed user documents
with two selected (partial selection), one regulatory document with one
selected (full selection). -/
theorem c7_witness :
    ((updateSelectAllUserDocsState stSubset).checked = true ↔
      stSubset.selectedUserDocIds.card = stSubset.documents.length ∧
        0 < stSubset.documents.length) ∧
    ((updateSelectAllUserDocsState stSubset).indeterminate = true ↔
      0 < stSubset.selectedUserDocIds.card ∧
        stSubset.selectedUserDocIds.card < stSubset.documents.length) ∧
    ((updateSelectAllState stSubset).checked = true ↔
      stSubset.selectedMahareraIds.card = stSubset.mahareraDocuments.length ∧
        0 < stSubset.mahareraDocuments.length) ∧
    ((updateSelectAllState stSubset).indeterminate = true ↔
      0 < stSubset.selectedMahareraIds.card ∧
        stSubset.selectedMahareraIds.card < stSubset.mahareraDocuments.length) :=
  c7_select_all_status stSubset (by decide) (by decide)

/-- Claim C4, counterexample: `checkCompliance` has no `isLoading` guard, so
a compliance-check submit fired while a previous request is still
`Submitting` is not rejected — two back-to-back synchronous invocations
issue two network calls (one request each), even though the first one left
`isLoading = true`. -/
theorem c4_counterexample :
    (checkCompliance stReady).1.isLoading = true ∧
    requestCount (checkCompliance stReady).2 = 1 ∧
    requestCount (checkCompliance (checkCompliance stReady).1).2 = 1 :=
  ⟨rfl, rfl, rfl⟩

/-- Claim C4, amended: the free-text submit (`sendMessage`) is serialized by
the `isLoading` flag — invoked while `Submitting` it is a no-op issuing zero
network calls, and two back-to-back synchronous invocations from an idle
state with a non-empty input issue exactly one network call.  The
compliance-check submit carries no such guard (see the counterexample). -/
theorem c4_submit_serialization_amended (st st2 : AppState)
    (h : st.isLoading = true)
    (h1 : jsTrim st2.messageInputValue ≠ "") (h2 : st2.isLoading = false) :
    sendMessage st = (st, none) ∧
    requestCount (sendMessage st2).2 +
      requestCount (sendMessage (sendMessage st2).1).2 = 1 := by
  constructor
  · simp [sendMessage, h]
  · have hcond : ¬(jsTrim st2.messageInputValue = "" ∨ st2.isLoading = true) := by
      simp [h1, h2]
    simp [sendMessage, hcond, requestCount]

/-- Witness for the amended claim C4: a busy state rejects the free-text
submit, and back-to-back submits from an idle state with a pending question
issue exactly one request. -/
theorem c4_witness :
    sendMessage stBusy = (stBusy, none) ∧
    requestCount (sendMessage stMsg).2 +
      requestCount (sendMessage (sendMessage stMsg).1).2 = 1 :=
  c4_submit_serialization_amended stBusy stMsg rfl (by decide) rfl

/-- Claim C5: a compliance-check submit with zero selected regulatory
documents or zero listed user documents is rejected before any network call
(state unchanged, no request); when both preconditions hold, exactly one
request is issued, with `complianceCheck = true` and `topK` fixed at 10. -/
theorem c5_compliance_preconditions (st : AppState) :
    (st.selectedMahareraIds.card = 0 ∨ st.documents.length = 0 →
      checkCompliance st = (st, none)) ∧
    (st.selectedMahareraIds.card ≠ 0 → st.documents.length ≠ 0 →
      (checkCompliance st).2.isSome = true ∧
      (checkCompliance st).2.map QueryRequest.complianceCheck = some true ∧
      (checkCompliance st).2.map QueryRequest.topK = some 10) := by
  constructor
  · rintro (h | h) <;> simp [checkCompliance, h, ite_self]
  · intro h1 h2
    simp [checkCompliance, h1, h2]

/-- Witness for claim C5: end-to-end scenario B (two listed user documents,
zero selected regulatory documents) is rejected with no request, while a
state meeting both preconditions issues one request with
`complianceCheck = true` and `topK = 10`. -/
theorem c5_witness :
    checkCompliance stNoMaha = (stNoMaha, none) ∧
    ((checkCompliance stReady).2.isSome = true ∧
     (checkCompliance stReady).2.map QueryRequest.complianceCheck = some true ∧
     (checkCompliance stReady).2.map QueryRequest.topK = some 10) :=
  ⟨(c5_compliance_preconditions stNoMaha).1 (Or.inl (by decide)),
   (c5_compliance_preconditions stReady).2 (by decide) (by decide)⟩

/-- Claim C6: in the view `addMessage` assembles, the compliance-summary
block is present exactly when the summary field is present and the result
is a compliance check, the red-flag block exactly when the red-flag list is
present and non-empty and the result is a compliance check; for a
non-compliance result both blocks (and the no-red-flags banner) are
suppressed even when the backend response carries the fields. -/
theorem c6_render_block_gating (decision : Option Decision)
    (cs : Option ComplianceSummary) (rfs : Option (List RedFlag))
    (sources : Option (List SourceItem)) (showSources : Bool) :
    ((addMessageView decision cs rfs sources showSources).complianceBlock.isSome
       = (isComplianceCheck decision && cs.isSome)) ∧
    ((addMessageView decision cs rfs sources showSources).redFlagItems.isSome
       = (isComplianceCheck decision && rfs.isSome &&
           decide (0 < (rfs.getD []).length))) ∧
    (isComplianceCheck decision = false →
      (addMessageView decision cs rfs sources showSources).complianceBlock = none ∧
      (addMessageView decision cs rfs sources showSources).redFlagItems = none ∧
      (addMessageView decision cs rfs sources showSources).noRedFlagsBanner = false) := by
  refine ⟨?_, ?_, fun h => ?_⟩
  · rcases cs with _ | csv <;>
      cases hic : isComplianceCheck decision <;>
        simp [addMessageView, hic]
  · rcases rfs with _ | l
    · cases hic : isComplianceCheck decision <;> simp [addMessageView, hic]
    · cases hic : isComplianceCheck decision <;>
        by_cases hl : 0 < l.length <;> simp [addMessageView, hic, hl]
  · simp [addMessageView, h]

/-- Witness for claim C6: a non-compliance response that nevertheless carries
a compliance summary, a non-empty red-flag list and an `is_red_flag` field
renders with both blocks and the banner suppressed. -/
theorem c6_witness :
    (addMessageView decPlain (some csumEx) (some [flagEx]) none true).complianceBlock
      = none ∧
    (addMessageView decPlain (some csumEx) (some [flagEx]) none true).redFlagItems
      = none ∧
    (addMessageView decPlain (some csumEx) (some [flagEx]) none true).noRedFlagsBanner
      = false :=
  (c6_render_block_gating decPlain (some csumEx) (some [flagEx]) none true).2.2 rfl

/-- `getD` of a mapped list at an in-range index is the function applied to
`getD` of the original list. -/
theorem getD_map_lt {α β : Type} (f : α → β) :
    ∀ (l : List α) (i : Nat) (d : β) (e : α),
      i < l.length → (l.map f).getD i d = f (l.getD i e)
  | [], i, _, _, h => absurd h (by simp)
  | _ :: _, 0, _, _, _ => rfl
  | _ :: l, i + 1, d, e, h => getD_map_lt f l i d e (by simpa using h)

/-- Claim C8: per-document batch entries are rendered independently — both
on screen and in the batch PDF, the view of entry `i` is a function of entry
`i` alone, so replacing the surrounding entries (e.g. by ones with status
"error") never changes how entry `i` renders. -/
theorem c8_batch_entry_independence (rs rs2 : List BatchEntry) (i : Nat)
    (e : BatchEntry) (dv : BatchEntryView) (dp : BatchPdfEntryView)
    (hi : i < rs.length) (hi2 : i < rs2.length)
    (h : rs.getD i e = rs2.getD i e) :
    (displayBatchResults rs).getD i dv = renderBatchEntry (rs.getD i e) ∧
    (displayBatchResults rs).getD i dv = (displayBatchResults rs2).getD i dv ∧
    (generateBatchPdfReportEntries rs).getD i dp = renderBatchPdfEntry (rs.getD i e) := by
  refine ⟨getD_map_lt renderBatchEntry rs i dv e hi, ?_,
    getD_map_lt renderBatchPdfEntry rs i dp e hi⟩
  rw [displayBatchResults, displayBatchResults,
    getD_map_lt renderBatchEntry rs i dv e hi,
    getD_map_lt renderBatchEntry rs2 i dv e hi2, h]

/-- Witness for claim C8: end-to-end scenario C — in the batch of three where
document #2 has status "error", entry #2 renders its error marker while
entries #1 and #3 render normally with their red-flag and clause counts. -/
theorem c8_witness :
    ((displayBatchResults rs3).getD 1 (.errorView "" "")
        = renderBatchEntry (rs3.getD 1 okEntry1) ∧
      (displayBatchResults rs3).getD 1 (.errorView "" "")
        = (displayBatchResults rs3).getD 1 (.errorView "" "") ∧
      (generateBatchPdfReportEntries rs3).getD 1 (.errorView "" "")
        = renderBatchPdfEntry (rs3.getD 1 okEntry1)) ∧
    renderBatchEntry errEntry = .errorView "b.pdf" "OCR failed" ∧
    renderBatchEntry okEntry1 = .statsView "a.pdf" 0 5 5 ∧
    renderBatchEntry okEntry2 = .statsView "c.pdf" 1 3 5 :=
  ⟨c8_batch_entry_independence rs3 rs3 1 okEntry1 (.errorView "" "")
     (.errorView "" "") (by decide) (by decide) rfl,
   by decide, by decide, by decide⟩

/-- `substring(0, n)` of a string of length at most `n` is the whole
string. -/
theorem jsSubstring_of_le (s : String) (n : Nat) (h : s.length ≤ n) :
    jsSubstring s n = s := by
  cases s with
  | mk data =>
    simp only [String.length] at h
    simp [jsSubstring, List.take_of_length_le h]

/-- Claim C10: for a red flag whose clause source carries a (truthy) filename
and excerpt, the excerpt shown on screen and the excerpt line printed in the
PDF report are exactly the first 150 characters of the excerpt followed by
the literal "..." — appended unconditionally, so an excerpt of at most 150
characters is shown in full yet still gains the suffix — while the report
data stored on the message keeps the red-flag list untouched. -/
theorem c10_excerpt_truncation (flag : RedFlag) (cs : ClauseSource)
    (f e : String) (idx : Nat) (content : String) (rfs : Option (List RedFlag))
    (dec : Option Decision) (csum : Option ComplianceSummary)
    (srcs : Option (List SourceItem))
    (h1 : flag.clause_source = some cs) (h2 : cs.filename = some f) (h3 : f ≠ "")
    (h4 : cs.excerpt = some e) (h5 : e ≠ "") :
    (renderRedFlagItem flag).clauseExcerpt = some (jsSubstring e 150 ++ "...") ∧
    (e.length ≤ 150 → (renderRedFlagItem flag).clauseExcerpt = some (e ++ "...")) ∧
    ("Excerpt: \"" ++ jsSubstring e 150 ++ "...\"")
      ∈ generateComplianceReportFlagLines flag idx ∧
    (addMessageReportData content srcs rfs dec csum).redFlags = rfs := by
  have hf : jsTruthy cs.filename = some f := by simp [jsTruthy, h2, h3]
  have he : jsTruthy cs.excerpt = some e := by simp [jsTruthy, h4, h5]
  refine ⟨?_, fun hlen => ?_, ?_, rfl⟩
  · simp [renderRedFlagItem, h1, hf, he]
  · simp [renderRedFlagItem, h1, hf, he, jsSubstring_of_le e 150 hlen]
  · simp [generateComplianceReportFlagLines, h1, hf, he]

/-- Witness for claim C10 at a concrete red flag whose 15-character excerpt
is shown in full with the unconditional "..." suffix. -/
theorem c10_witness :
    (renderRedFlagItem flagEx).clauseExcerpt
      = some (jsSubstring "Clause 4.2 text" 150 ++ "...") ∧
    ("Clause 4.2 text".length ≤ 150 →
      (renderRedFlagItem flagEx).clauseExcerpt = some ("Clause 4.2 text" ++ "...")) ∧
    ("Excerpt: \"" ++ jsSubstring "Clause 4.2 text" 150 ++ "...\"")
      ∈ generateComplianceReportFlagLines flagEx 0 ∧
    (addMessageReportData "answer" none (some [flagEx]) decCompliance
        (some csumEx)).redFlags = some [flagEx] :=
  c10_excerpt_truncation flagEx ⟨some "agreement.pdf", some "4.2", some "Clause 4.2 text"⟩
    "agreement.pdf" "Clause 4.2 text" 0 "answer" (some [flagEx]) decCompliance
    (some csumEx) none rfl rfl (by decide) rfl (by decide)

/-- Each line drawn by one pass of `addText`'s loop body either was already
drawn or lies within the printable area (`y ≤ pageHeight - 30`). -/
theorem addTextLine_drawn_le (ph fs : ℚ) (st : PdfLayout) (hph : 52 ≤ ph)
    (d : Nat × ℚ) (hd : d ∈ (addTextLine ph fs st).drawn) :
    d ∈ st.drawn ∨ d.2 ≤ ph - 30 := by
  simp only [addTextLine] at hd
  split_ifs at hd with hbr
  · rcases List.mem_cons.mp hd with h | h
    · right
      rw [h]
      show (20 : ℚ) ≤ ph - 30
      linarith
    · left
      exact h
  · rcases List.mem_cons.mp hd with h | h
    · right
      rw [h]
      show st.yPos ≤ ph - 30
      linarith [le_of_not_lt hbr]
    · left
      exact h

/-- Every line drawn during a whole `addText` call either was already drawn
or lies within the printable area. -/
theorem addText_drawn_le (ph fs : ℚ) (hph : 52 ≤ ph) :
    ∀ (n : Nat) (st : PdfLayout) (d : Nat × ℚ),
      d ∈ (addText ph fs n st).drawn → d ∈ st.drawn ∨ d.2 ≤ ph - 30 := by
  intro n
  induction n with
  | zero =>
    intro st d hd
    left
    simpa [addText] using hd
  | succ m ih =>
    intro st d hd
    simp only [addText] at hd
    rcases ih (addTextLine ph fs st) d hd with h | h
    · exact addTextLine_drawn_le ph fs st hph d h
    · right
      exact h

/-- The banner `addSection` draws lies within the printable area, and it is
the only line the call adds. -/
theorem addSection_drawn (ph : ℚ) (st : PdfLayout) (hph : 52 ≤ ph) :
    (addSection ph st).drawn.headI.2 ≤ ph - 30 ∧
    (addSection ph st).drawn.tail = st.drawn := by
  simp only [addSection]
  split_ifs with hbr
  · constructor
    · show (20 : ℚ) + 2 ≤ ph - 30
      linarith
    · rfl
  · constructor
    · show st.yPos + 5 + 2 ≤ ph - 30
      linarith [le_of_not_lt hbr]
    · rfl

/-- Claim C1: during a report build, every line `addText` draws lands within
the printable area (`y ≤ pageHeight - 30`, the page height minus the bottom
margin); whenever the cursor sits past that limit, drawing the next line
first emits a new page and resets the cursor to the top margin (20), and the
line is drawn there; `addSection`'s banner obeys the same bound via its
larger look-ahead. -/
theorem c1_pdf_printable_area (ph fs : ℚ) (st : PdfLayout) (n : Nat)
    (d : Nat × ℚ) (hph : 52 ≤ ph) (hd : d ∈ (addText ph fs n st).drawn) :
    (d ∈ st.drawn ∨ d.2 ≤ ph - 30) ∧
    (ph - 30 < st.yPos →
      addTextLine ph fs st =
        { yPos := 20 + fs / 2, page := st.page + 1
        , drawn := (st.page + 1, 20) :: st.drawn }) ∧
    (addSection ph st).drawn.headI.2 ≤ ph - 30 ∧
    (addSection ph st).drawn.tail = st.drawn := by
  refine ⟨addText_drawn_le ph fs hph n st d hd, fun hbr => ?_,
    (addSection_drawn ph st hph).1, (addSection_drawn ph st hph).2⟩
  simp [addTextLine, hbr]

/-- Witness for claim C1 on an A4 page (`pageHeight = 297`): a cursor at
`y = 280` (past the printable limit 267) forces a page break, the cursor
resets to the top margin, and the drawn lines stay within the printable
area. -/
theorem c1_witness :
    (((2 : Nat), (20 : ℚ)) ∈ stPdf.drawn ∨
      (((2 : Nat), (20 : ℚ)) : Nat × ℚ).2 ≤ 297 - 30) ∧
    ((297 : ℚ) - 30 < stPdf.yPos →
      addTextLine 297 10 stPdf =
        { yPos := 20 + 10 / 2, page := stPdf.page + 1
        , drawn := (stPdf.page + 1, 20) :: stPdf.drawn }) ∧
    (addSection 297 stPdf).drawn.headI.2 ≤ 297 - 30 ∧
    (addSection 297 stPdf).drawn.tail = stPdf.drawn :=
  c1_pdf_printable_area 297 10 stPdf 2 ((2 : Nat), (20 : ℚ)) (by norm_num)
    (by norm_num [addText, addTextLine, stPdf])

end Clover
